import Mathlib

/- Verification of the intent-routing and response-formatting layer of the
banking chatbot's DialogFlow integration. The definitions below are a
shallow embedding of the TypeScript service emitted by
src/create-dialogflow-integration.py: the DialogFlowService class
(detectIntent, extractParameters, mapToBankingOperation,
formatBankingResponse) and the handleIntent routing snippet with its
CONFIDENCE_THRESHOLDS from the generated README. JavaScript numbers are
modelled as exact rationals; absent or undefined JS values are modelled
with Option. -/

namespace DialogFlow

/-- Models JavaScript String.prototype.startsWith, as used by the routing
snippet in the expression result.intent.startsWith of the prefix string. -/
def jsStartsWith (s pre : String) : Bool := pre.data.isPrefixOf s.data

/-- A value inside the Google protobuf Struct payload of
queryResult.parameters. Exactly one oneof member is set per field. The
kinds that extractParameters never reads (boolValue, listValue, nullValue)
are collapsed into otherValue: every branch of the source treats them the
same way, by taking no branch at all. A structValue carries its own
optional fields object, read in the source as field.structValue.fields
with optional chaining. -/
inductive GValue : Type where
  | stringValue (s : String)
  | numberValue (n : ℚ)
  | structValue (fields : Option (List (String × GValue)))
  | otherValue

/-- The top-level queryResult.parameters Struct; its fields member may be
absent, which the source guards with parameters.fields or an empty object. -/
structure GoogleStruct : Type where
  fields : Option (List (String × GValue))

/-- A normalized parameter value: string, number, or a money object holding
an amount (undefined in JS when the amount sub-field has no numberValue,
hence Option) and a currency string. -/
inductive ParamValue : Type where
  | str (s : String)
  | num (n : ℚ)
  | money (amount : Option ℚ) (currency : String)
deriving DecidableEq

/-- JS property access on a protobuf fields object: the value at a key,
undefined when the key is absent. -/
def lookupField (fs : List (String × GValue)) (k : String) : Option GValue :=
  (fs.find? (fun p => p.1 == k)).map (fun p => p.2)

/-- The numberValue member of a Value: set only when the value is a number. -/
def numberValueOf : GValue → Option ℚ
  | .numberValue n => some n
  | _ => none

/-- The stringValue member of a Value: set only when the value is a string. -/
def stringValueOf : GValue → Option String
  | .stringValue s => some s
  | _ => none

/-- The JS expression reading the currency of a money struct: the currency
sub-field with optional chaining to stringValue, with fallback to USD.
An absent currency, a non-string currency, or an empty currency string
(falsy in JS) all yield USD. -/
def currencyOf (fso : Option (List (String × GValue))) : String :=
  match fso.bind (fun fs => (lookupField fs "currency").bind stringValueOf) with
  | some c => if c = "" then "USD" else c
  | none => "USD"

/-- One iteration of the forEach in extractParameters of
DialogFlowService.ts: a string field is kept as a string, a number field
as a number; a struct field is kept only when its fields object has an
amount sub-field, and is then normalized into a money object whose amount
is the sub-field's numberValue and whose currency defaults to USD. Any
other shape writes no entry, so the function returns none for it. -/
def extractField : GValue → Option ParamValue
  | .stringValue s => some (.str s)
  | .numberValue n => some (.num n)
  | .structValue fso =>
      match fso.bind (fun fs => lookupField fs "amount") with
      | some amt => some (.money (numberValueOf amt) (currencyOf fso))
      | none => none
  | .otherValue => none

/-- extractParameters of DialogFlowService.ts: an absent parameters object
or an absent fields member gives the empty mapping; otherwise each field
is classified by extractField and dropped when that yields none. -/
def extractParameters (parameters : Option GoogleStruct) : List (String × ParamValue) :=
  match parameters with
  | none => []
  | some p =>
      match p.fields with
      | none => []
      | some fs => fs.filterMap (fun kv => (extractField kv.2).map (fun v => (kv.1, v)))

/-- One row of the static intent table: whether the operation needs an
authenticated caller, its REST endpoint and its permission string. -/
structure OperationDescriptor : Type where
  requiresAuth : Bool
  apiEndpoint : Option String
  permission : Option String
deriving DecidableEq, Repr

/-- The twelve-entry intentMapping literal of mapToBankingOperation, in
source order. -/
def intentMapping : List (String × OperationDescriptor) :=
  [("auth.login", { requiresAuth := false, apiEndpoint := some "/api/auth/login", permission := none }),
   ("account.balance", { requiresAuth := true, apiEndpoint := some "/api/accounts/balance", permission := some "read:balance" }),
   ("transaction.history", { requiresAuth := true, apiEndpoint := some "/api/transactions", permission := some "read:transactions" }),
   ("payment.transfer", { requiresAuth := true, apiEndpoint := some "/api/balance-transfers", permission := some "write:transfer" }),
   ("payment.bill", { requiresAuth := true, apiEndpoint := some "/api/payments/bill", permission := some "write:payment" }),
   ("card.status", { requiresAuth := true, apiEndpoint := some "/api/cards", permission := some "read:cards" }),
   ("card.block", { requiresAuth := true, apiEndpoint := some "/api/cards/block", permission := some "write:card" }),
   ("dispute.create", { requiresAuth := true, apiEndpoint := some "/api/disputes", permission := some "write:dispute" }),
   ("fraud.report", { requiresAuth := true, apiEndpoint := some "/api/fraud/report", permission := some "write:fraud" }),
   ("account.statement", { requiresAuth := true, apiEndpoint := some "/api/accounts/statement", permission := some "read:statement" }),
   ("general.greeting", { requiresAuth := false, apiEndpoint := none, permission := none }),
   ("general.help", { requiresAuth := false, apiEndpoint := none, permission := none })]

/-- The fail-closed fallback descriptor of mapToBankingOperation. -/
def defaultDescriptor : OperationDescriptor :=
  { requiresAuth := true, apiEndpoint := none, permission := none }

/-- mapToBankingOperation of DialogFlowService.ts: indexing the static
table with JS falsy-fallback to the default descriptor. Every table value
is a truthy object, so the fallback fires exactly when the intent is not a
key. The parameters argument is accepted and ignored, as in the source. -/
def mapToBankingOperation (intent : String) (parameters : List (String × ParamValue)) :
    OperationDescriptor :=
  ((intentMapping.find? (fun p => p.1 == intent)).map (fun p => p.2)).getD defaultDescriptor

/-- The intent object of a DialogFlow query result; its displayName may be
absent. -/
structure DFIntent : Type where
  displayName : Option String

/-- The queryResult object of a detectIntent response; every member the
service reads may be absent. -/
structure QueryResult : Type where
  intent : Option DFIntent
  intentDetectionConfidence : Option ℚ
  parameters : Option GoogleStruct
  fulfillmentText : Option String

/-- A detectIntent response from the provider: the queryResult member may
be absent, which is the one case the service turns into a thrown error. -/
structure DFResponse : Type where
  queryResult : Option QueryResult

/-- The IntentResult interface of DialogFlowService.ts. -/
structure IntentResult : Type where
  intent : String
  confidence : ℚ
  parameters : List (String × ParamValue)
  fulfillmentText : String
  requiresAuth : Bool
  apiEndpoint : Option String
  permission : Option String
deriving DecidableEq

/-- The JS expression queryResult.intent with optional chaining to
displayName, with falsy-fallback to the literal unknown: an absent intent
object, an absent display name, or an empty display name all give
unknown. -/
def intentNameOf (qintent : Option DFIntent) : String :=
  match qintent with
  | none => "unknown"
  | some i =>
      match i.displayName with
      | none => "unknown"
      | some s => if s = "" then "unknown" else s

/-- detectIntent of DialogFlowService.ts, as a function of the provider
response. A response without a queryResult throws, and the catch block
rethrows with the prefixed message, modelled as the error branch. The
confidence falls back to 0 and the fulfillment text to the empty string
under the JS falsy-fallbacks of the source (for a number, the only falsy
value our rational model can hold is 0, and 0 falls back to 0, so getD is
exact; likewise the empty string falls back to the empty string). -/
def detectIntent (response : DFResponse) : Except String IntentResult :=
  match response.queryResult with
  | none => .error "Failed to detect intent: No query result received from DialogFlow"
  | some queryResult =>
      let intentName := intentNameOf queryResult.intent
      let confidence := queryResult.intentDetectionConfidence.getD 0
      let parameters := extractParameters queryResult.parameters
      let fulfillmentText := queryResult.fulfillmentText.getD ""
      let bankingIntent := mapToBankingOperation intentName parameters
      .ok { intent := intentName, confidence := confidence, parameters := parameters,
            fulfillmentText := fulfillmentText,
            requiresAuth := bankingIntent.requiresAuth,
            apiEndpoint := bankingIntent.apiEndpoint,
            permission := bankingIntent.permission }

/-- CONFIDENCE_THRESHOLDS.HIGH_CONFIDENCE of the README routing snippet. -/
def HIGH_CONFIDENCE : ℚ := 0.8

/-- CONFIDENCE_THRESHOLDS.MEDIUM_CONFIDENCE of the README routing snippet. -/
def MEDIUM_CONFIDENCE : ℚ := 0.6

/-- CONFIDENCE_THRESHOLDS.LOW_CONFIDENCE of the README routing snippet
(declared in the source but never read by handleIntent). -/
def LOW_CONFIDENCE : ℚ := 0.4

/-- What a run of the README handleIntent does with the result: which of
the three handlers it calls, or noAction when control falls through the
high-confidence branch without calling any handler. -/
inductive HandleAction : Type where
  | executeAction
  | askForConfirmation
  | requestClarification
  | noAction
deriving DecidableEq, Repr

/-- handleIntent of the README routing snippet: at high confidence it
calls executeAction only for intents starting with the account prefix or
equal to general.help; any other intent at high confidence falls through
the inner if with no handler call at all, modelled as noAction. Below the
high threshold it asks for confirmation at and above the medium threshold,
and requests clarification otherwise. -/
def handleIntent (intent : String) (confidence : ℚ) : HandleAction :=
  if confidence ≥ HIGH_CONFIDENCE then
    if jsStartsWith intent "account." || intent == "general.help" then
      .executeAction
    else
      .noAction
  else if confidence ≥ MEDIUM_CONFIDENCE then
    .askForConfirmation
  else
    .requestClarification

/-- The three confidence tiers of the policy. -/
inductive ConfidenceTier : Type where
  | high
  | medium
  | low
deriving DecidableEq, Repr

/-- The threshold cascade of handleIntent, separated from its per-intent
safe list: the tier a confidence value falls into, with both comparisons
inclusive as in the source. -/
def classifyConfidence (confidence : ℚ) : ConfidenceTier :=
  if confidence ≥ HIGH_CONFIDENCE then .high
  else if confidence ≥ MEDIUM_CONFIDENCE then .medium
  else .low

/-- The five intents whose descriptors carry a financial-mutation write
permission in the intent table: transfer, bill payment, card block,
dispute creation and fraud report. -/
def stateChangingIntents : List String :=
  ["payment.transfer", "payment.bill", "card.block", "dispute.create", "fraud.report"]

/-- The shape of the banking-API response object formatBankingResponse
probes: each member it may read, absent unless the caller supplied it. -/
structure ApiResponse : Type where
  balance : Option ℚ
  success : Option Bool
  transactionId : Option String
  disputeId : Option String
  reportId : Option String

/-- Models ECMAScript ToString applied to a number whose value is a finite
decimal, the only numbers the formatter interpolates raw into template
literals: an integer prints with no point, and a non-integer prints the
shortest decimal digit string, with no trailing fractional zeros. -/
def jsNumToString (q : ℚ) : String :=
  if q.den = 1 then toString q.num
  else
    let k := ((List.range 30).find? (fun k => (q * (10 : ℚ) ^ k).den = 1)).getD 0
    let n := (q * (10 : ℚ) ^ k).num
    let s := toString n.natAbs
    let s := if s.length ≤ k then String.mk (List.replicate (k + 1 - s.length) '0') ++ s else s
    (if n < 0 then "-" else "") ++ s.take (s.length - k) ++ "." ++ s.drop (s.length - k)

/-- A whole number of cents printed as a decimal with exactly two
fractional digits; only called on non-negative inputs by toFixed2. -/
def renderCents (cents : ℤ) : String :=
  let whole := cents / 100
  let frac := (cents % 100).toNat
  toString whole ++ "." ++ (if frac < 10 then "0" ++ toString frac else toString frac)

/-- Models Number.prototype.toFixed with two fraction digits for the
non-negative amounts the formatter prints: round the number of cents to
the nearest integer, half away from zero upward as the ECMAScript tie
rule picks the larger candidate, then print with two fractional digits. -/
def toFixed2 (q : ℚ) : String :=
  renderCents ⌊q * 100 + 1 / 2⌋

/-- Template-literal interpolation of a normalized parameter value: a
string interpolates as itself, a number through ToString, and a money
object as a plain JS object does. -/
def stringOfParamValue : ParamValue → String
  | .str s => s
  | .num n => jsNumToString n
  | .money _ _ => "[object Object]"

/-- JS property access on the normalized parameter record. -/
def lookupParam (params : List (String × ParamValue)) (k : String) : Option ParamValue :=
  (params.find? (fun p => p.1 == k)).map (fun p => p.2)

/-- Interpolation of a possibly-undefined parameter, as in the recipient
template: an absent parameter interpolates as the word undefined. -/
def paramString (params : List (String × ParamValue)) (k : String) : String :=
  match lookupParam params k with
  | some v => stringOfParamValue v
  | none => "undefined"

/-- The JS expression reading the amount of the amount-of-money parameter
with optional chaining: defined only when that parameter is a money object
with a set amount. -/
def moneyAmountOf : Option ParamValue → Option ℚ
  | some (.money a _) => a
  | _ => none

/-- The amount the transfer templates interpolate: the amount-of-money
parameter's amount member, with JS falsy-fallback to the plain amount
parameter (an unset amount, or the falsy amount 0, both fall back), and
the word undefined when both are missing. -/
def transferAmountString (params : List (String × ParamValue)) : String :=
  match moneyAmountOf (lookupParam params "amount-of-money") with
  | some a => if a = 0 then paramString params "amount" else jsNumToString a
  | none => paramString params "amount"

/-- The card type the card-block templates interpolate: the card-type
parameter with JS falsy-fallback to the word card (an absent parameter,
an empty string or the number 0 are falsy; any object is truthy). -/
def cardTypeString (params : List (String × ParamValue)) : String :=
  match lookupParam params "card-type" with
  | none => "card"
  | some (.str s) => if s = "" then "card" else s
  | some (.num n) => if n = 0 then "card" else jsNumToString n
  | some v => stringOfParamValue v

/-- Truthiness of the JS expression probing the balance member through
optional chaining: the balance number when the response and the member are
present and the number is not 0 (the falsy number our model can hold). -/
def truthyBalance : Option ApiResponse → Option ℚ
  | some r =>
      match r.balance with
      | some b => if b = 0 then none else some b
      | none => none
  | none => none

/-- Truthiness of the JS expression probing the success member through
optional chaining. -/
def truthySuccess : Option ApiResponse → Bool
  | some r => r.success.getD false
  | none => false

/-- Truthiness of a possibly-absent string member: present and non-empty. -/
def truthyString : Option String → Option String
  | some s => if s = "" then none else some s
  | none => none

/-- The transactionId member of a possibly-absent response. -/
def respTransactionId : Option ApiResponse → Option String
  | some r => r.transactionId
  | none => none

/-- The disputeId member of a possibly-absent response. -/
def respDisputeId : Option ApiResponse → Option String
  | some r => r.disputeId
  | none => none

/-- The reportId member of a possibly-absent response. -/
def respReportId : Option ApiResponse → Option String
  | some r => r.reportId
  | none => none

/-- Interpolation of a possibly-undefined string, as in the transaction id
template. -/
def optString : Option String → String
  | some s => s
  | none => "undefined"

/-- formatBankingResponse of DialogFlowService.ts: the switch over the
intent name, each case with a result-present and a result-absent branch,
and the default case falling back to the fulfillment text with a generic
acknowledgment when that is empty (falsy). -/
def formatBankingResponse (intentResult : IntentResult) (apiResponse : Option ApiResponse) :
    String :=
  let intent := intentResult.intent
  let parameters := intentResult.parameters
  if intent = "account.balance" then
    match truthyBalance apiResponse with
    | some b => "Your account balance is $" ++ toFixed2 b
    | none => "I can help you check your account balance. Please wait while I retrieve this information."
  else if intent = "payment.transfer" then
    let amount := transferAmountString parameters
    let recipient := paramString parameters "recipient"
    if truthySuccess apiResponse then
      "Successfully transferred $" ++ amount ++ " to " ++ recipient ++ ". Transaction ID: " ++
        optString (respTransactionId apiResponse)
    else
      "I'll help you transfer $" ++ amount ++ " to " ++ recipient ++ ". Please confirm this transaction."
  else if intent = "card.block" then
    let cardType := cardTypeString parameters
    if truthySuccess apiResponse then
      "Your " ++ cardType ++ " has been successfully blocked for security. A replacement card will be sent to you."
    else
      "I'll block your " ++ cardType ++ " immediately for security. This action cannot be undone."
  else if intent = "dispute.create" then
    match truthyString (respDisputeId apiResponse) with
    | some d => "Dispute filed successfully. Reference number: " ++ d ++ ". We'll investigate and contact you within 5-7 business days."
    | none => "I'll help you file a dispute for this transaction. Please provide details about the disputed charge."
  else if intent = "fraud.report" then
    match truthyString (respReportId apiResponse) with
    | some r => "Fraud report filed. Reference: " ++ r ++ ". Your account has been flagged for monitoring. Please change your passwords immediately."
    | none => "I understand you need to report fraud. This is serious - I'll immediately flag your account and start the investigation process."
  else
    if intentResult.fulfillmentText = "" then
      "I can help you with that. Let me process your request."
    else
      intentResult.fulfillmentText

/-! Theorems. -/

/-- handleIntent is exactly the three-tier cascade of classifyConfidence
followed by the per-intent safe list in the high tier. -/
lemma handleIntent_eq_tier (intent : String) (c : ℚ) :
    handleIntent intent c =
      (match classifyConfidence c with
       | .high =>
           if jsStartsWith intent "account." || intent == "general.help" then
             HandleAction.executeAction
           else
             HandleAction.noAction
       | .medium => HandleAction.askForConfirmation
       | .low => HandleAction.requestClarification) := by
  unfold handleIntent classifyConfidence
  split_ifs <;> rfl

/-- For an intent outside the safe list, the high-confidence branch calls
no handler, the medium tier asks for confirmation, and the low tier
requests clarification; executeAction is never called. -/
lemma handleIntent_unsafe_cases (intent : String) (c : ℚ)
    (hsafe : (jsStartsWith intent "account." || intent == "general.help") = false) :
    handleIntent intent c ≠ HandleAction.executeAction ∧
    (HIGH_CONFIDENCE ≤ c → handleIntent intent c = HandleAction.noAction) ∧
    (MEDIUM_CONFIDENCE ≤ c → c < HIGH_CONFIDENCE →
      handleIntent intent c = HandleAction.askForConfirmation) ∧
    (c < MEDIUM_CONFIDENCE → handleIntent intent c = HandleAction.requestClarification) := by
  unfold handleIntent
  rw [hsafe]
  simp only [Bool.false_eq_true, if_false]
  refine ⟨?_, ?_, ?_, ?_⟩
  · split_ifs <;> simp
  · intro h
    rw [if_pos h]
  · intro h1 h2
    rw [if_neg (not_le.mpr h2), if_pos h1]
  · intro h
    have hH : c < HIGH_CONFIDENCE := lt_trans h (by norm_num [MEDIUM_CONFIDENCE, HIGH_CONFIDENCE])
    rw [if_neg (not_le.mpr hH), if_neg (not_le.mpr h)]

/-- C1 (amended): for every state-changing intent (payment.transfer,
payment.bill, card.block, dispute.create, fraud.report) and every
confidence, handleIntent never calls executeAction; but at confidence at
or above the high threshold the candidate auto-execution is not downgraded
to a confirmation request: control falls through with no handler call at
all (noAction). A confirmation request happens exactly in the medium
tier, at or above 0.6 and below 0.8. -/
theorem state_changing_never_auto_execute (intent : String) (c : ℚ)
    (h : intent ∈ stateChangingIntents) :
    handleIntent intent c ≠ HandleAction.executeAction ∧
    (HIGH_CONFIDENCE ≤ c → handleIntent intent c = HandleAction.noAction) ∧
    (MEDIUM_CONFIDENCE ≤ c → c < HIGH_CONFIDENCE →
      handleIntent intent c = HandleAction.askForConfirmation) := by
  have hsafe : (jsStartsWith intent "account." || intent == "general.help") = false := by
    fin_cases h <;> decide
  obtain ⟨h1, h2, h3, _⟩ := handleIntent_unsafe_cases intent c hsafe
  exact ⟨h1, h2, h3⟩

/-- C1 counterexample: at confidence 0.99 the intent payment.transfer is
not downgraded to a confirmation request as the claim states; handleIntent
calls no handler at all. -/
theorem transfer_high_confidence_not_confirm :
    handleIntent "payment.transfer" 0.99 = HandleAction.noAction ∧
    handleIntent "payment.transfer" 0.99 ≠ HandleAction.askForConfirmation := by
  have h : handleIntent "payment.transfer" 0.99 = HandleAction.noAction := by
    unfold handleIntent
    rw [if_pos (show (0.99 : ℚ) ≥ HIGH_CONFIDENCE by norm_num [HIGH_CONFIDENCE])]
    decide
  refine ⟨h, ?_⟩
  rw [h]
  decide

/-- C1 witness: the amended theorem applied at payment.transfer with
confidence 0.99. -/
theorem state_changing_never_auto_execute_witness :
    ("payment.transfer" ∈ stateChangingIntents) ∧
    handleIntent "payment.transfer" 0.99 ≠ HandleAction.executeAction ∧
    handleIntent "payment.transfer" 0.99 = HandleAction.noAction := by
  have hmem : "payment.transfer" ∈ stateChangingIntents := by decide
  have h := state_changing_never_auto_execute "payment.transfer" 0.99 hmem
  exact ⟨hmem, h.1, h.2.1 (by norm_num [HIGH_CONFIDENCE])⟩

/-- C2: the OperationDescriptor lookup is a total Lean function, and every
intent name outside the twelve keys of the static table maps to exactly
the fail-closed default descriptor. -/
theorem mapToBankingOperation_default (intent : String)
    (params : List (String × ParamValue))
    (h : intent ∉ intentMapping.map Prod.fst) :
    mapToBankingOperation intent params = defaultDescriptor := by
  unfold mapToBankingOperation
  have hfind : intentMapping.find? (fun p => p.1 == intent) = none := by
    rw [List.find?_eq_none]
    intro p hp
    simp only [beq_iff_eq]
    intro hEq
    exact h (List.mem_map.mpr ⟨p, hp, hEq⟩)
  rw [hfind]
  rfl

/-- C2 witness: the unknown intent name foo.bar is not a key of the table
and maps to the default descriptor. -/
theorem mapToBankingOperation_default_witness :
    ("foo.bar" ∉ intentMapping.map Prod.fst) ∧
    mapToBankingOperation "foo.bar" [] = defaultDescriptor := by
  have hmem : "foo.bar" ∉ intentMapping.map Prod.fst := by decide
  exact ⟨hmem, mapToBankingOperation_default "foo.bar" [] hmem⟩

/-- C3: the tier classification is inclusive at both boundaries, exactly
0.8 falls in the high tier and exactly 0.6 in the medium tier, and every
confidence strictly below 0.6 is classified into the clarification tier. -/
theorem classifyConfidence_boundaries :
    classifyConfidence 0.8 = ConfidenceTier.high ∧
    classifyConfidence 0.6 = ConfidenceTier.medium ∧
    ∀ c : ℚ, c < 0.6 → classifyConfidence c = ConfidenceTier.low := by
  refine ⟨?_, ?_, ?_⟩
  · unfold classifyConfidence
    rw [if_pos (show (0.8 : ℚ) ≥ HIGH_CONFIDENCE by norm_num [HIGH_CONFIDENCE])]
  · unfold classifyConfidence
    rw [if_neg (show ¬ ((0.6 : ℚ) ≥ HIGH_CONFIDENCE) by norm_num [HIGH_CONFIDENCE]),
      if_pos (show (0.6 : ℚ) ≥ MEDIUM_CONFIDENCE by norm_num [MEDIUM_CONFIDENCE])]
  · intro c hc
    unfold classifyConfidence
    have hH : ¬ (c ≥ HIGH_CONFIDENCE) := by
      rw [show HIGH_CONFIDENCE = (0.8 : ℚ) from rfl]
      exact not_le.mpr (hc.trans (by norm_num))
    have hM : ¬ (c ≥ MEDIUM_CONFIDENCE) := by
      rw [show MEDIUM_CONFIDENCE = (0.6 : ℚ) from rfl]
      exact not_le.mpr hc
    rw [if_neg hH, if_neg hM]

/-- C3 witness: the boundary theorem applied at the concrete confidence
0.5, which classifies into the clarification tier. -/
theorem classifyConfidence_boundaries_witness :
    classifyConfidence 0.5 = ConfidenceTier.low :=
  classifyConfidence_boundaries.2.2 0.5 (by norm_num)

/-- C4: a struct field with an amount sub-field holding a number and no
currency sub-field normalizes to a money value with that amount and the
default currency USD, both at the single-field level and through
extractParameters. -/
theorem extract_money_default_currency
    (fs : List (String × GValue)) (amt : GValue) (a : ℚ)
    (hamt : lookupField fs "amount" = some amt)
    (hnum : numberValueOf amt = some a)
    (hcur : lookupField fs "currency" = none) :
    extractField (GValue.structValue (some fs)) = some (ParamValue.money (some a) "USD") ∧
    ∀ k : String,
      extractParameters (some ⟨some [(k, GValue.structValue (some fs))]⟩) =
        [(k, ParamValue.money (some a) "USD")] := by
  have h1 : extractField (GValue.structValue (some fs)) =
      some (ParamValue.money (some a) "USD") := by
    unfold extractField currencyOf
    simp [hamt, hnum, hcur]
  refine ⟨h1, fun k => ?_⟩
  simp [extractParameters, h1]

/-- C4 witness: a structured amount of 150.00 with no currency sub-field
normalizes to the money value with amount 150.00 and currency USD. -/
theorem extract_money_default_currency_witness :
    extractParameters
        (some ⟨some [("amount-of-money",
          GValue.structValue (some [("amount", GValue.numberValue 150)]))]⟩) =
      [("amount-of-money", ParamValue.money (some 150) "USD")] :=
  (extract_money_default_currency [("amount", GValue.numberValue 150)]
    (GValue.numberValue 150) 150 rfl rfl rfl).2 "amount-of-money"

/-- C8: the normalizer is total and permissive; an absent parameters
object, an absent fields member and an empty fields object all give the
empty mapping, and a struct field without an amount sub-field is dropped
from the output wherever it sits, rather than causing an error. -/
theorem extractParameters_permissive :
    extractParameters none = [] ∧
    extractParameters (some ⟨none⟩) = [] ∧
    extractParameters (some ⟨some []⟩) = [] ∧
    (∀ fso : Option (List (String × GValue)),
      fso.bind (fun fs => lookupField fs "amount") = none →
      extractField (GValue.structValue fso) = none) ∧
    (∀ (pre post : List (String × GValue)) (k : String)
      (fso : Option (List (String × GValue))),
      fso.bind (fun fs => lookupField fs "amount") = none →
      extractParameters (some ⟨some (pre ++ (k, GValue.structValue fso) :: post)⟩) =
        extractParameters (some ⟨some (pre ++ post)⟩)) := by
  have hdrop : ∀ fso : Option (List (String × GValue)),
      fso.bind (fun fs => lookupField fs "amount") = none →
      extractField (GValue.structValue fso) = none := by
    intro fso h
    simp only [extractField]
    rw [h]
  refine ⟨rfl, rfl, rfl, hdrop, ?_⟩
  intro pre post k fso h
  have h2 : extractField (GValue.structValue fso) = none := hdrop fso h
  simp [extractParameters, List.filterMap_append, h2]

/-- C8 witness: the permissiveness theorem applied to a concrete struct
field without an amount sub-field, which is dropped and leaves the
mapping empty. -/
theorem extractParameters_permissive_witness :
    extractParameters
        (some ⟨some [("location",
          GValue.structValue (some [("city", GValue.stringValue "Boston")]))]⟩) = [] := by
  have h := extractParameters_permissive.2.2.2.2 [] []
    "location" (some [("city", GValue.stringValue "Boston")]) rfl
  exact h.trans rfl

/-- Looking up the name unknown in the static table falls through to the
fail-closed default descriptor, whatever the parameters. -/
lemma mapToBankingOperation_unknown (params : List (String × ParamValue)) :
    mapToBankingOperation "unknown" params = defaultDescriptor := rfl

/-- C7 counterexample: a provider response whose query result lacks an
intent field does not make detectIntent fail; it returns a successful
result with intent name unknown, contrary to the claimed MalformedResponse
failure. -/
theorem detectIntent_missing_intent_succeeds :
    detectIntent ⟨some ⟨none, none, none, some "hi"⟩⟩ =
      Except.ok
        { intent := "unknown", confidence := 0, parameters := [],
          fulfillmentText := "hi", requiresAuth := true,
          apiEndpoint := none, permission := none } := rfl

/-- C7 (amended): detectIntent fails only when the response lacks a query
result entirely, and then with the one generic rethrown message; there is
no ProviderUnavailable, ProviderError or MalformedResponse distinction in
the service, and a query result without an intent field yields a
successful result whose intent is unknown and which is marked as
requiring authentication. -/
theorem detectIntent_error_cases :
    (∀ r : DFResponse, r.queryResult = none →
      detectIntent r =
        Except.error "Failed to detect intent: No query result received from DialogFlow") ∧
    (∀ (r : DFResponse) (qr : QueryResult), r.queryResult = some qr → qr.intent = none →
      ∃ res : IntentResult,
        detectIntent r = Except.ok res ∧ res.intent = "unknown" ∧ res.requiresAuth = true) := by
  constructor
  · intro r h
    unfold detectIntent
    rw [h]
  · intro r qr hqr hint
    refine
      ⟨{ intent := "unknown", confidence := qr.intentDetectionConfidence.getD 0,
         parameters := extractParameters qr.parameters,
         fulfillmentText := qr.fulfillmentText.getD "",
         requiresAuth := true, apiEndpoint := none, permission := none }, ?_, rfl, rfl⟩
    have hname : intentNameOf qr.intent = "unknown" := by
      rw [hint]
      rfl
    unfold detectIntent
    rw [hqr]
    simp [hname, mapToBankingOperation_unknown, defaultDescriptor]

/-- C7 witness: the amended theorem applied to a response with no query
result and to a response whose query result has no intent field. -/
theorem detectIntent_error_cases_witness :
    detectIntent ⟨none⟩ =
      Except.error "Failed to detect intent: No query result received from DialogFlow" ∧
    ∃ res : IntentResult,
      detectIntent ⟨some ⟨none, some 1, none, some "hello"⟩⟩ = Except.ok res ∧
        res.intent = "unknown" ∧ res.requiresAuth = true :=
  ⟨detectIntent_error_cases.1 ⟨none⟩ rfl,
   detectIntent_error_cases.2 ⟨some ⟨none, some 1, none, some "hello"⟩⟩
     ⟨none, some 1, none, some "hello"⟩ rfl rfl⟩

/-- C10: a response with a query result but no intent object, or an intent
object with no display name or an empty one, and no detection confidence,
succeeds with intent unknown and confidence 0, and the name unknown
resolves through the static table to the fail-closed default descriptor
with requiresAuth true. -/
theorem detectIntent_unknown_fail_closed (r : DFResponse) (qr : QueryResult)
    (hqr : r.queryResult = some qr)
    (hintent : qr.intent = none ∨
      ∃ i : DFIntent, qr.intent = some i ∧ (i.displayName = none ∨ i.displayName = some ""))
    (hconf : qr.intentDetectionConfidence = none) :
    detectIntent r =
      Except.ok
        { intent := "unknown", confidence := 0,
          parameters := extractParameters qr.parameters,
          fulfillmentText := qr.fulfillmentText.getD "",
          requiresAuth := true, apiEndpoint := none, permission := none } ∧
    mapToBankingOperation "unknown" (extractParameters qr.parameters) = defaultDescriptor := by
  have hname : intentNameOf qr.intent = "unknown" := by
    rcases hintent with h | ⟨i, hi, hd⟩
    · rw [h]
      rfl
    · rcases hd with hd | hd <;> simp [intentNameOf, hi, hd]
  refine ⟨?_, mapToBankingOperation_unknown _⟩
  unfold detectIntent
  rw [hqr]
  simp [hname, hconf, mapToBankingOperation_unknown, defaultDescriptor]

/-- C10 witness: the theorem applied to the fully-empty query result. -/
theorem detectIntent_unknown_fail_closed_witness :
    detectIntent ⟨some ⟨none, none, none, none⟩⟩ =
      Except.ok
        { intent := "unknown", confidence := 0, parameters := [],
          fulfillmentText := "", requiresAuth := true,
          apiEndpoint := none, permission := none } ∧
    mapToBankingOperation "unknown" [] = defaultDescriptor :=
  detectIntent_unknown_fail_closed ⟨some ⟨none, none, none, none⟩⟩
    ⟨none, none, none, none⟩ rfl (Or.inl rfl) rfl

/-- C9: with an API result present whose balance field equals 0, the
account.balance formatter takes the result-absent branch and returns the
forward-looking acknowledgment, not a rendering of a zero balance: the
result-present branch is gated on the truthiness of the balance value,
and 0 is falsy. -/
theorem format_zero_balance_absent_branch :
    formatBankingResponse
        { intent := "account.balance", confidence := 0, parameters := [],
          fulfillmentText := "", requiresAuth := true,
          apiEndpoint := some "/api/accounts/balance", permission := some "read:balance" }
        (some { balance := some 0, success := none, transactionId := none,
                disputeId := none, reportId := none }) =
      "I can help you check your account balance. Please wait while I retrieve this information." ∧
    "I can help you check your account balance. Please wait while I retrieve this information." ≠
      "Your account balance is $0.00" :=
  ⟨rfl, by decide⟩

/-- C6 counterexample: the payment.transfer template interpolates the
money amount raw, so 100 renders as 100 and not with two decimal places;
and the dollar sign is hardcoded, so a money value in EUR still renders
under a dollar sign instead of the ISO code prefix the claim requires. -/
theorem format_transfer_raw_amount :
    formatBankingResponse
        { intent := "payment.transfer", confidence := 0,
          parameters := [("amount-of-money", ParamValue.money (some 100) "USD"),
            ("recipient", ParamValue.str "John")],
          fulfillmentText := "", requiresAuth := true,
          apiEndpoint := some "/api/balance-transfers", permission := some "write:transfer" }
        none =
      "I'll help you transfer $100 to John. Please confirm this transaction." ∧
    "I'll help you transfer $100 to John. Please confirm this transaction." ≠
      "I'll help you transfer $100.00 to John. Please confirm this transaction." ∧
    formatBankingResponse
        { intent := "payment.transfer", confidence := 0,
          parameters := [("amount-of-money", ParamValue.money (some 100) "EUR"),
            ("recipient", ParamValue.str "John")],
          fulfillmentText := "", requiresAuth := true,
          apiEndpoint := some "/api/balance-transfers", permission := some "write:transfer" }
        none =
      "I'll help you transfer $100 to John. Please confirm this transaction." :=
  ⟨rfl, by decide, rfl⟩

/-- C6 (amended): only the account.balance result-present branch renders
an amount with exactly two decimal places, and it always uses the
hardcoded dollar sign whatever the currency; the documented scenario
holds, a balance of 1234.5 renders as the two-decimal dollar string; the
other money templates interpolate the raw amount with no decimal
formatting and no currency-symbol derivation. -/
theorem format_balance_two_decimals :
    formatBankingResponse
        { intent := "account.balance", confidence := 0, parameters := [],
          fulfillmentText := "", requiresAuth := true,
          apiEndpoint := some "/api/accounts/balance", permission := some "read:balance" }
        (some { balance := some 1234.5, success := none, transactionId := none,
                disputeId := none, reportId := none }) =
      "Your account balance is $1234.50" ∧
    ∀ (ir : IntentResult) (resp : ApiResponse) (b : ℚ),
      ir.intent = "account.balance" → resp.balance = some b → b ≠ 0 →
      formatBankingResponse ir (some resp) = "Your account balance is $" ++ toFixed2 b := by
  have hgen : ∀ (ir : IntentResult) (resp : ApiResponse) (b : ℚ),
      ir.intent = "account.balance" → resp.balance = some b → b ≠ 0 →
      formatBankingResponse ir (some resp) = "Your account balance is $" ++ toFixed2 b := by
    intro ir resp b hint hbal hb
    have htb : truthyBalance (some resp) = some b := by
      simp [truthyBalance, hbal, hb]
    simp [formatBankingResponse, hint, htb]
  refine ⟨?_, hgen⟩
  have h1 := hgen
    { intent := "account.balance", confidence := 0, parameters := [],
      fulfillmentText := "", requiresAuth := true,
      apiEndpoint := some "/api/accounts/balance", permission := some "read:balance" }
    { balance := some 1234.5, success := none, transactionId := none,
      disputeId := none, reportId := none }
    1234.5 rfl rfl (by norm_num)
  rw [h1]
  have h : ⌊(1234.5 : ℚ) * 100 + 1 / 2⌋ = (123450 : ℤ) := by
    norm_num [Int.floor_eq_iff]
  simp only [toFixed2, h]
  rfl

/-- C6 witness: the amended two-decimal property of the balance branch
applied at the concrete balance 2. -/
theorem format_balance_two_decimals_witness :
    formatBankingResponse
        { intent := "account.balance", confidence := 0, parameters := [],
          fulfillmentText := "", requiresAuth := true,
          apiEndpoint := none, permission := none }
        (some { balance := some 2, success := none, transactionId := none,
                disputeId := none, reportId := none }) =
      "Your account balance is $" ++ toFixed2 2 :=
  format_balance_two_decimals.2
    { intent := "account.balance", confidence := 0, parameters := [],
      fulfillmentText := "", requiresAuth := true,
      apiEndpoint := none, permission := none }
    { balance := some 2, success := none, transactionId := none,
      disputeId := none, reportId := none }
    2 rfl rfl (by norm_num)

end DialogFlow
